import Mathlib

/-!
Verification of the authorship-ledger subsystem of the Poets Codex server
(`src/server/src/services/LedgerService.js`,
`src/server/src/models/LedgerEntry.js`,
`src/server/src/services/FileBasedLedger.js`,
`src/server/src/routes/poemRoutes.js`).

Modelling conventions:

* Node's `crypto` SHA-256 and HMAC-SHA-256 are external library calls; they
  are modelled as concrete injective string functions (`sha256`,
  `hmacSha256`).  Injectivity of the model stands in for collision
  resistance of the real digests.  Every property proved here depends only
  on determinism and (for inequalities at concrete inputs) injectivity.
* `Date` timestamps are modelled as natural numbers; `Date#toISOString` is
  the injective rendering `isoString`.
* The Mongoose collection backing `LedgerEntry` is modelled as a list of
  entries in insertion order.  Appends assign strictly increasing
  `createdAt` values, so the list is already in ascending `createdAt`
  order: `find(...).sort(createdAt ascending)` is a filter of the list,
  and `findOne().sort(createdAt descending)` is its last element.
* Node's `crypto.Hash.update` throws a `TypeError` when handed
  `undefined`; a call of `generateContentHash` on an absent argument is
  modelled as the error value `cryptoUpdateUndefinedError`.
-/

/-- Model of SHA-256 (`crypto.createHash('sha256').update(s).digest('hex')`):
an injective tagging of the input, standing in for the real digest. -/
def sha256 (s : String) : String := "sha256(" ++ s ++ ")"

/-- Model of HMAC-SHA-256 (`crypto.createHmac('sha256', key).update(s)`). -/
def hmacSha256 (key s : String) : String := "hmac(" ++ key ++ "|" ++ s ++ ")"

/-- Model of `Date#toISOString` on a natural-number timestamp. -/
def isoString (n : Nat) : String := "ts-" ++ toString n

/-- The `TypeError` Node's `crypto.Hash.update` throws when the data
argument is `undefined` (as happens when `verifyAuthorship` is called
without its `currentContent` parameter). -/
def cryptoUpdateUndefinedError : String :=
  "TypeError: The data argument must be of type string. Received undefined"

/-- The `metadata` subdocument of `ledgerEntrySchema`
(`src/server/src/models/LedgerEntry.js`, lines 32-40), restricted to the
fields the ledger services populate. -/
structure LedgerMetadata where
  title : String
  originalTimestamp : Nat
  license : String
  wordCount : Nat
  previousVersion : Option String
deriving DecidableEq, Repr, Inhabited

/-- One element of `witnessNodes` (`LedgerEntry.js`, lines 45-49). -/
structure WitnessNode where
  nodeId : String
  signature : String
  timestamp : Nat
deriving DecidableEq, Repr

/-- A persisted `LedgerEntry` document (`LedgerEntry.js`, lines 4-64).
`previousHash` is nullable (`default: null`); `createdAt` is the
timestamp Mongoose assigns at save time. -/
structure LedgerEntry where
  eventType : String
  poemId : String
  authorId : String
  contentHash : String
  previousHash : Option String
  blockHash : String
  metadata : LedgerMetadata
  signature : String
  witnessNodes : List WitnessNode
  isVerified : Bool
  createdAt : Nat
deriving DecidableEq, Repr, Inhabited

/-- The `LedgerEntry` collection, in insertion (= ascending `createdAt`)
order. -/
abbrev Store := List LedgerEntry

/-- `LedgerEntry.find(poemId).sort(createdAt ascending)`: the entries of
one poem, in chain order. -/
def findByPoem (store : Store) (poemId : String) : List LedgerEntry :=
  List.filter (fun e => e.poemId == poemId) store

/-- `LedgerEntry.findOne().sort(createdAt descending)`: the most recently
created entry across all poems (`LedgerService.js`, lines 35-37). -/
def latestGlobal (store : Store) : Option LedgerEntry :=
  List.getLast? store

/-- `LedgerEntry.findOne(poemId).sort(createdAt descending)`: the most
recently created entry for one poem (`LedgerService.js`, lines 92-94). -/
def latestForPoem (store : Store) (poemId : String) : Option LedgerEntry :=
  List.getLast? (findByPoem store poemId)

/-- `LedgerService.generateContentHash` (`LedgerService.js`, lines 10-12). -/
def generateContentHash (content : String) : String := sha256 content

/-- `LedgerService.generateBlockHash` (`LedgerService.js`, lines 15-18):
SHA-256 of previous hash (or the sentinel string "0" when null), content
hash, timestamp and author, concatenated. -/
def generateBlockHash (contentHash : String) (previousHash : Option String)
    (timestamp : String) (authorId : String) : String :=
  sha256 ((previousHash.getD "0") ++ contentHash ++ timestamp ++ authorId)

/-- `LedgerService.generateSignature` (`LedgerService.js`, lines 21-23),
with its default private key inlined. -/
def generateSignature (data : String) : String :=
  hmacSha256 "poets-codex-secret" data

/-- The poem document fields `createPoemEntry`/`updatePoemEntry`
destructure (`LedgerService.js`, lines 28 and 85). -/
structure PoemData where
  id : String
  title : String
  body : String
  author : String
  license : String
deriving DecidableEq, Repr

/-- The `wordCount` metadata field (`LedgerService.js`, line 60):
length of `title body` split on single spaces. -/
def wordCount (title body : String) : Nat :=
  List.length (String.splitOn (title ++ " " ++ body) " ")

/-- `LedgerService.createPoemEntry` (`LedgerService.js`, lines 26-80),
with the clock passed explicitly: `timestamp` is the `new Date()` value.
The previous entry is the latest entry across ALL poems (lines 35-39).
Returns the saved entry and the store after the save. -/
def createPoemEntry (store : Store) (p : PoemData) (timestamp : Nat) :
    LedgerEntry × Store :=
  let contentHash :=
    generateContentHash (p.title ++ p.body ++ p.author ++ isoString timestamp)
  let previousHash := (latestGlobal store).map (fun e => e.blockHash)
  let blockHash :=
    generateBlockHash contentHash previousHash (isoString timestamp) p.author
  let signature :=
    generateSignature (contentHash ++ blockHash ++ isoString timestamp)
  let entry : LedgerEntry :=
    { eventType := "POEM_CREATED"
      poemId := p.id
      authorId := p.author
      contentHash := contentHash
      previousHash := previousHash
      blockHash := blockHash
      metadata :=
        { title := p.title
          originalTimestamp := timestamp
          license := p.license
          wordCount := wordCount p.title p.body
          previousVersion := none }
      signature := signature
      witnessNodes :=
        [{ nodeId := "primary-node"
           signature := generateSignature ("witness-" ++ blockHash)
           timestamp := timestamp }]
      isVerified := true
      createdAt := timestamp }
  (entry, store ++ [entry])

/-- `LedgerService.updatePoemEntry` (`LedgerService.js`, lines 83-140).
The previous entry is the latest entry FOR THIS POEM (lines 92-94); if
none exists the service throws before anything is saved, so the store is
unchanged on the error path. -/
def updatePoemEntry (store : Store) (p : PoemData) (timestamp : Nat) :
    Except String (LedgerEntry × Store) :=
  match latestForPoem store p.id with
  | none => Except.error "No previous ledger entry found for poem update"
  | some previousEntry =>
    let contentHash :=
      generateContentHash (p.title ++ p.body ++ p.author ++ isoString timestamp)
    let blockHash :=
      generateBlockHash contentHash (some previousEntry.blockHash)
        (isoString timestamp) p.author
    let signature :=
      generateSignature (contentHash ++ blockHash ++ isoString timestamp)
    let entry : LedgerEntry :=
      { eventType := "POEM_UPDATED"
        poemId := p.id
        authorId := p.author
        contentHash := contentHash
        previousHash := some previousEntry.blockHash
        blockHash := blockHash
        metadata :=
          { title := p.title
            originalTimestamp := timestamp
            license := p.license
            wordCount := wordCount p.title p.body
            previousVersion := some previousEntry.contentHash }
        signature := signature
        witnessNodes :=
          [{ nodeId := "primary-node"
             signature := generateSignature ("witness-" ++ blockHash)
             timestamp := timestamp }]
        isVerified := true
        createdAt := timestamp }
    Except.ok (entry, store ++ [entry])

/-- The loop body of `LedgerEntry.verifyChainIntegrity`
(`LedgerEntry.js`, lines 120-125): walk the entries in `createdAt` order
and fail as soon as some entry's `previousHash` differs from its
predecessor's `blockHash`.  Nothing else is checked: neither `blockHash`
nor `signature` is recomputed, and no break position is reported. -/
def chainLinked : List LedgerEntry → Bool
  | [] => true
  | [_] => true
  | a :: b :: rest =>
    (b.previousHash == some a.blockHash) && chainLinked (b :: rest)

/-- `LedgerEntry.verifyChainIntegrity` (`LedgerEntry.js`, lines 116-127):
fetch the entries OF ONE POEM in creation order and run the linkage
loop. -/
def verifyChainIntegrity (store : Store) (poemId : String) : Bool :=
  chainLinked (findByPoem store poemId)

/-- `LedgerEntry.getAuthorshipChain` (`LedgerEntry.js`, lines 108-113):
the poem's entries sorted ascending by `createdAt` (the `populate` of the
author document is presentation only and not modelled). -/
def getAuthorshipChain (store : Store) (poemId : String) : List LedgerEntry :=
  findByPoem store poemId

/-- One element of the `entries` array `verifyAuthorship` returns
(`LedgerService.js`, lines 178-183). -/
structure EntrySummary where
  eventType : String
  timestamp : Nat
  author : String
  contentHash : String
deriving DecidableEq, Repr

/-- The result object of `LedgerService.verifyAuthorship`
(`LedgerService.js`, lines 150-184).  Fields absent from the early
returns are `none` / `[]`. -/
structure VerificationResult where
  isValid : Bool
  reason : Option String
  originalAuthor : Option String
  creationDate : Option Nat
  lastModified : Option Nat
  totalModifications : Option Nat
  entries : List EntrySummary
deriving DecidableEq, Repr

/-- The body of `LedgerService.verifyAuthorship` once `currentContent` is
a present string (`LedgerService.js`, lines 145-184): empty chain is
invalid, a broken linkage is invalid, and otherwise validity is the
comparison of the hash of the supplied content with the LATEST entry's
stored `contentHash`. -/
def verifyAuthorshipWith (store : Store) (poemId : String)
    (currentContent : String) : VerificationResult :=
  let currentHash := generateContentHash currentContent
  let entries := getAuthorshipChain store poemId
  match List.getLast? entries with
  | none =>
    { isValid := false, reason := some "No ledger entries found"
      originalAuthor := none, creationDate := none, lastModified := none
      totalModifications := none, entries := [] }
  | some latestEntry =>
    let chainValid := verifyChainIntegrity store poemId
    if !chainValid then
      { isValid := false, reason := some "Ledger chain integrity compromised"
        originalAuthor := none, creationDate := none, lastModified := none
        totalModifications := none, entries := [] }
    else
      let contentMatches := latestEntry.contentHash == currentHash
      { isValid := contentMatches && chainValid
        reason := none
        originalAuthor := (List.head? entries).map (fun e => e.authorId)
        creationDate := (List.head? entries).map (fun e => e.createdAt)
        lastModified := some latestEntry.createdAt
        totalModifications := some (entries.length - 1)
        entries := entries.map (fun e =>
          { eventType := e.eventType, timestamp := e.createdAt
            author := e.authorId, contentHash := e.contentHash }) }

/-- `LedgerService.verifyAuthorship` (`LedgerService.js`, lines 143-189).
Its first statement hashes `currentContent`; when the caller passed no
content (as `generateAuthorshipCertificate` and `validateCertificate`
both do), `crypto.Hash.update(undefined)` throws, and the `catch` block
rethrows, so the whole call errors. -/
def verifyAuthorship (store : Store) (poemId : String)
    (currentContent : Option String) : Except String VerificationResult :=
  match currentContent with
  | none => Except.error cryptoUpdateUndefinedError
  | some content => Except.ok (verifyAuthorshipWith store poemId content)

/-- The certificate object `generateAuthorshipCertificate` builds
(`LedgerService.js`, lines 223-233). -/
structure Certificate where
  poemId : String
  certificateId : String
  issuedAt : String
  originalAuthor : String
  creationDate : Nat
  lastVerified : String
  chainLength : Nat
  certificateHash : String
  digitalSignature : String
deriving DecidableEq, Repr

/-- Model of `JSON.stringify` of a certificate with `certificateHash` and
`digitalSignature` set to `undefined` (and hence omitted), as both
issuance (lines 236-240) and validation (lines 255-259) serialize it. -/
def certSerialize (c : Certificate) : String :=
  "poemId:" ++ c.poemId ++
  ";certificateId:" ++ c.certificateId ++
  ";issuedAt:" ++ c.issuedAt ++
  ";originalAuthor:" ++ c.originalAuthor ++
  ";creationDate:" ++ toString c.creationDate ++
  ";lastVerified:" ++ c.lastVerified ++
  ";chainLength:" ++ toString c.chainLength

/-- `LedgerService.generateAuthorshipCertificate`
(`LedgerService.js`, lines 215-250), with the random certificate id and
the issuance clock passed explicitly.  Line 217 calls
`verifyAuthorship(poemId)` WITHOUT a content argument, so the inner call
is made with `none`. -/
def generateAuthorshipCertificate (store : Store) (poemId : String)
    (certificateId issuedAt : String) : Except String Certificate :=
  match verifyAuthorship store poemId none with
  | Except.error e => Except.error e
  | Except.ok verification =>
    if !verification.isValid then
      Except.error "Cannot generate certificate for invalid authorship"
    else
      let base : Certificate :=
        { poemId := poemId
          certificateId := certificateId
          issuedAt := issuedAt
          originalAuthor := verification.originalAuthor.getD ""
          creationDate := verification.creationDate.getD 0
          lastVerified := issuedAt
          chainLength := verification.entries.length
          certificateHash := ""
          digitalSignature := "" }
      let certificateData := certSerialize base
      Except.ok
        { base with
          certificateHash := generateContentHash certificateData
          digitalSignature := generateSignature certificateData }

/-- The result object of `LedgerService.validateCertificate`
(`LedgerService.js`, lines 270-280). -/
structure ValidationResult where
  isValid : Bool
  certificateIntegrity : Bool
  poemIntegrity : Bool
  hashMatch : Bool
  signatureMatch : Bool
  chainIntact : Bool
deriving DecidableEq, Repr

/-- `LedgerService.validateCertificate` (`LedgerService.js`,
lines 253-285).  Line 268 calls `verifyAuthorship(certificate.poemId)`
WITHOUT a content argument, so the inner call is made with `none`; the
result compares recomputed hash and signature, and nothing in it
compares the certificate's `chainLength` with the current chain
length. -/
def validateCertificate (store : Store) (certificate : Certificate) :
    Except String ValidationResult :=
  let certificateData := certSerialize certificate
  let expectedHash := generateContentHash certificateData
  let expectedSignature := generateSignature certificateData
  let hashValid := certificate.certificateHash == expectedHash
  let signatureValid := certificate.digitalSignature == expectedSignature
  match verifyAuthorship store certificate.poemId none with
  | Except.error e => Except.error e
  | Except.ok currentVerification =>
    Except.ok
      { isValid := hashValid && signatureValid && currentVerification.isValid
        certificateIntegrity := hashValid && signatureValid
        poemIntegrity := currentVerification.isValid
        hashMatch := hashValid
        signatureMatch := signatureValid
        chainIntact := currentVerification.isValid }

/-- The schema's `pre` save hook (`LedgerEntry.js`, lines 73-80): a save
of a document that is not new (`!this.isNew`) is rejected with the
`IMMUTABLE_LEDGER` error before it reaches the collection; a save of a
new document appends it. -/
def saveLedgerEntry (store : Store) (e : LedgerEntry) (isNew : Bool) :
    Except String Store :=
  if !isNew then
    Except.error "Ledger entries are immutable and cannot be modified"
  else
    Except.ok (store ++ [e])

/-- The schema's `pre` remove hook (`LedgerEntry.js`, lines 83-87):
every removal is rejected with the `IMMUTABLE_LEDGER` error. -/
def removeLedgerEntry (store : Store) (e : LedgerEntry) :
    Except String Store :=
  Except.error "Ledger entries cannot be deleted"

/-- The schema's `pre` deleteOne hook (`LedgerEntry.js`, lines 89-93):
every deleteOne is rejected with the `IMMUTABLE_LEDGER` error. -/
def deleteOneLedgerEntry (store : Store) : Except String Store :=
  Except.error "Ledger entries cannot be deleted"

/-- The object handed to `FileBasedLedger.appendEntry`
(`FileBasedLedger.js`, line 32): an arbitrary event record. -/
structure FlatDraft where
  poemId : String
  authorId : String
  eventType : String
deriving DecidableEq, Repr

/-- A record as written to the flat log (`FileBasedLedger.js`,
lines 37-41): the draft plus the write timestamp and the per-entry keyed
hash.  Note there is no linkage to a predecessor. -/
structure FlatRecord where
  poemId : String
  authorId : String
  eventType : String
  timestamp : String
  entryHash : String
deriving DecidableEq, Repr

/-- Model of `JSON.stringify(entry)` for the draft (line 40). -/
def serializeDraft (d : FlatDraft) : String :=
  "poemId:" ++ d.poemId ++ ";authorId:" ++ d.authorId ++
  ";eventType:" ++ d.eventType

/-- Model of `JSON.stringify(ledgerEntry)` for the written line
(line 43). -/
def serializeRecord (r : FlatRecord) : String :=
  "poemId:" ++ r.poemId ++ ";authorId:" ++ r.authorId ++
  ";eventType:" ++ r.eventType ++ ";timestamp:" ++ r.timestamp ++
  ";entryHash:" ++ r.entryHash

/-- The mutable state of a `FileBasedLedger`: the readiness flag set by
`initialize` and the content of the backing file. -/
structure FileLedgerState where
  isReady : Bool
  file : String
deriving DecidableEq, Repr

/-- The record `appendEntry` builds (`FileBasedLedger.js`, lines 36-41):
the draft spread together with the write timestamp and the keyed
per-entry hash over the serialized draft and the timestamp. -/
def mkFlatRecord (entry : FlatDraft) (timestamp : Nat) : FlatRecord :=
  { poemId := entry.poemId
    authorId := entry.authorId
    eventType := entry.eventType
    timestamp := isoString timestamp
    entryHash := sha256 (serializeDraft entry ++ isoString timestamp) }

/-- `FileBasedLedger.appendEntry` (`FileBasedLedger.js`, lines 32-52).
`ioFails` models `fs.appendFile` throwing.  When the ledger is not ready
the function returns `null` at once (line 33); when the write throws,
the `catch` block logs and returns `null` (lines 48-51).  In both
failure cases the caller receives the same bare `null` - no error value,
no typed discrimination of the cause - and the state is unchanged. -/
def appendEntry (st : FileLedgerState) (ioFails : Bool) (entry : FlatDraft)
    (timestamp : Nat) : Option FlatRecord × FileLedgerState :=
  if !st.isReady then (none, st)
  else
    let record := mkFlatRecord entry timestamp
    if ioFails then (none, st)
    else
      (some record,
       { st with file := st.file ++ serializeRecord record ++ "\n" })

/-- The query filter of `FileBasedLedger.getEntries`
(`FileBasedLedger.js`, line 54). -/
structure FlatFilter where
  poemId : Option String
  authorId : Option String
  eventType : Option String
deriving DecidableEq, Repr

/-- The filter with no fields set. -/
def emptyFlatFilter : FlatFilter :=
  { poemId := none, authorId := none, eventType := none }

/-- `lines.map(line => JSON.parse(line))` under the single `try` of
`getEntries`: parse every line, and fail as a whole as soon as one line
fails to parse (the thrown exception aborts the whole map). -/
def parseAllLines (parse : String → Option FlatRecord) :
    List String → Option (List FlatRecord)
  | [] => some []
  | line :: rest =>
    match parse line with
    | none => none
    | some r =>
      match parseAllLines parse rest with
      | none => none
      | some rs => some (r :: rs)

/-- Splitting a character list at newlines: the model of
`String#split` on a newline separator. -/
def splitOnNewline : List Char → List (List Char)
  | [] => [[]]
  | c :: rest =>
    match splitOnNewline rest with
    | [] => [[]]
    | l :: ls => if c = '\n' then [] :: l :: ls else (c :: l) :: ls

/-- The lines of a file content string. -/
def linesOf (s : String) : List String :=
  (splitOnNewline s.data).map (fun cs => String.mk cs)

/-- `FileBasedLedger.getEntries` (`FileBasedLedger.js`, lines 54-79).
`JSON.parse` is an external library call, passed in as `parse`; `none`
models a line on which it throws.  The source computes
`content.trim().split(newline).filter(truthy)`; since the only outer
whitespace an append-only line write ever leaves is a newline, this
equals splitting at newlines and dropping empty lines, which is how it
is modelled.  The whole body runs in one `try`/`catch` whose `catch`
returns `[]`, so a single malformed line makes the read return the
empty list. -/
def getEntries (parse : String → Option FlatRecord)
    (st : FileLedgerState) (filter : FlatFilter) : List FlatRecord :=
  if !st.isReady then []
  else
    let lines := (linesOf st.file).filter (fun l => l ≠ "")
    match parseAllLines parse lines with
    | none => []
    | some entries =>
      let entries := match filter.poemId with
        | none => entries
        | some pid => entries.filter (fun e => e.poemId == pid)
      let entries := match filter.authorId with
        | none => entries
        | some aid => entries.filter (fun e => e.authorId == aid)
      let entries := match filter.eventType with
        | none => entries
        | some et => entries.filter (fun e => e.eventType == et)
      entries

/-- The ledger step of the poem-creation route
(`src/server/src/routes/poemRoutes.js`, lines 69-76): the call to
`createPoemEntry` sits in its own `try`/`catch` whose `catch` only logs
("Continue even if ledger fails"), so the request proceeds to the 201
response whatever the ledger outcome.  Returns whether the route
proceeds. -/
def routeLedgerCreateStep (ledgerOutcome : Except String LedgerEntry) :
    Bool :=
  match ledgerOutcome with
  | Except.error _ => true
  | Except.ok _ => true

/-- Replace the stored `contentHash` of an entry, all other fields kept:
the simulated post-storage tamper of the spec. -/
def setContentHash (e : LedgerEntry) (h : String) : LedgerEntry :=
  { e with contentHash := h }

/-- Tamper with the store: replace the `contentHash` of the entry at
position `i`, leaving every other field and entry unchanged. -/
def tamperContent : Store → Nat → String → Store
  | [], _, _ => []
  | e :: rest, 0, h => setContentHash e h :: rest
  | e :: rest, Nat.succ i, h => e :: tamperContent rest i h

/-- The fields the chain-linkage loop reads from an entry: its
`previousHash` and its `blockHash`. -/
def linkData (e : LedgerEntry) : Option String × String :=
  (e.previousHash, e.blockHash)

/-! Concrete fixtures used by the closed theorems below. -/

/-- A first poem. -/
def poemA : PoemData :=
  { id := "poemA", title := "Aurora", body := "First light over the bay"
    author := "alice", license := "CC0 1.0" }

/-- A second lifecycle event of the same poem. -/
def poemA2 : PoemData :=
  { id := "poemA", title := "Aurora II", body := "Second light over the bay"
    author := "alice", license := "CC0 1.0" }

/-- A poem of another subject, by another author. -/
def poemB : PoemData :=
  { id := "poemB", title := "Borealis", body := "A northern sky"
    author := "bob", license := "CC BY 4.0" }

/-- The store after creating `poemA` at time 0. -/
def storeA1 : Store := (createPoemEntry [] poemA 0).2

/-- The first entry of `poemA`. -/
def entryA1 : LedgerEntry := (createPoemEntry [] poemA 0).1

/-- The store after a second event of `poemA` at time 1 (two-entry,
correctly linked, single-subject chain). -/
def storeA2 : Store := (createPoemEntry storeA1 poemA2 1).2

/-- The second entry of `poemA`. -/
def entryA2 : LedgerEntry := (createPoemEntry storeA1 poemA2 1).1

/-- The content string whose hash is stored in the tip entry of
`storeA2`. -/
def tipContentA2 : String :=
  poemA2.title ++ poemA2.body ++ poemA2.author ++ isoString 1

/-- The content string whose hash is stored in the single entry of
`storeA1`. -/
def tipContentA1 : String :=
  poemA.title ++ poemA.body ++ poemA.author ++ isoString 0

/-- `storeA2` with the FIRST entry's stored `contentHash` replaced: the
simulated tamper of the spec, applied to a non-tip entry. -/
def storeA2tampered : Store := tamperContent storeA2 0 "tampered-hash"

/-- Interleaved creations: `poemA` at time 0, `poemB` at time 1,
`poemA` again at time 2. -/
def storeI2 : Store := (createPoemEntry storeA1 poemB 1).2

/-- The `poemB` entry created at time 1. -/
def entryB : LedgerEntry := (createPoemEntry storeA1 poemB 1).1

/-- The store after the interleaved third creation. -/
def storeI3 : Store := (createPoemEntry storeI2 poemA2 2).2

/-- The third entry (second event of `poemA`), created after `poemB`'s
entry. -/
def entryA3 : LedgerEntry := (createPoemEntry storeI2 poemA2 2).1

/-! Helper lemmas for the tamper-invariance of the linkage check. -/

/-- Replacing a stored `contentHash` changes neither field the linkage
loop reads. -/
theorem linkData_setContentHash (e : LedgerEntry) (h : String) :
    linkData (setContentHash e h) = linkData e := rfl

/-- Tampering with one entry's `contentHash` leaves the per-poem
sequence of (previousHash, blockHash) pairs unchanged. -/
theorem tamper_filter_linkData (s : Store) (i : Nat) (h pid : String) :
    (findByPoem (tamperContent s i h) pid).map linkData =
      (findByPoem s pid).map linkData := by
  induction s generalizing i with
  | nil => rfl
  | cons e t ih =>
    cases i with
    | zero =>
      by_cases hc : e.poemId == pid <;>
        simp [tamperContent, findByPoem, List.filter_cons, setContentHash,
          hc, linkData]
    | succ i =>
      by_cases hc : e.poemId == pid
      · simpa [tamperContent, findByPoem, List.filter_cons, hc]
          using ih i
      · simpa [tamperContent, findByPoem, List.filter_cons, hc]
          using ih i

/-- The linkage loop depends only on the (previousHash, blockHash)
projection of the entries. -/
theorem chainLinked_congr (l₁ l₂ : List LedgerEntry)
    (hm : l₁.map linkData = l₂.map linkData) :
    chainLinked l₁ = chainLinked l₂ := by
  induction l₁ generalizing l₂ with
  | nil =>
    have : l₂ = [] := by simpa using hm.symm
    subst this; rfl
  | cons a t ih =>
    cases l₂ with
    | nil => simp at hm
    | cons b t₂ =>
      simp only [List.map_cons, List.cons.injEq] at hm
      obtain ⟨hab, ht⟩ := hm
      simp only [linkData, Prod.mk.injEq] at hab
      cases t with
      | nil =>
        have : t₂ = [] := by simpa using ht.symm
        subst this; rfl
      | cons a' t' =>
        cases t₂ with
        | nil => simp at ht
        | cons b' t₂' =>
          have hrec := ih (b' :: t₂') ht
          have hab' : linkData a' = linkData b' := by
            have := congrArg List.head? ht
            simpa using this
          simp only [linkData, Prod.mk.injEq] at hab'
          simp only [chainLinked]
          rw [hab.2, hab'.1, hrec]

/-- Claim C1.  The claim asserts a two-part verification (linkage AND
recomputation of `blockHash`/`signature` for every entry) that reports
the position of the first break, so that tampering with a stored
`contentHash` is detected at that position.  The code's
`verifyChainIntegrity` performs only the linkage check and returns a
bare boolean; it never recomputes `blockHash` or `signature`, so
replacing the stored `contentHash` of any entry leaves the verdict of
chain verification unchanged. -/
theorem verifyChainIntegrity_ignores_contentHash_tamper
    (s : Store) (i : Nat) (h pid : String) :
    verifyChainIntegrity (tamperContent s i h) pid =
      verifyChainIntegrity s pid :=
  chainLinked_congr _ _ (tamper_filter_linkData s i h pid)

/-- Claim C1, counterexample to the claim as stated: in a correctly
linked two-entry chain for `poemA`, replacing the first entry's stored
`contentHash` by a different string still makes `verifyChainIntegrity`
report valid (the claim demands invalid at position 0) - and even full
authorship verification with the genuine current content reports valid,
since it compares content only against the tip entry. -/
theorem tampered_chain_reported_valid :
    entryA1.contentHash ≠ "tampered-hash" ∧
    verifyChainIntegrity storeA2 "poemA" = true ∧
    verifyChainIntegrity storeA2tampered "poemA" = true ∧
    (verifyAuthorshipWith storeA2tampered "poemA" tipContentA2).isValid
      = true := by
  refine ⟨?_, ?_, ?_, ?_⟩ <;> decide

/-- Claim C2: when appending a creation entry, the recorded
`previousHash` is the `blockHash` of the most recently created entry
across ALL poems, while chain verification filters to one poem; in the
concrete interleaved store (poemA at 0, poemB at 1, poemA at 2) the
third entry's `previousHash` is `poemB`'s block hash, not the block hash
of its per-subject predecessor - and the per-poem linkage check on this
untampered store consequently fails. -/
theorem creation_links_globally_verification_per_poem :
    (∀ (s : Store) (p : PoemData) (n : Nat),
      ((createPoemEntry s p n).1).previousHash =
        (latestGlobal s).map (fun e => e.blockHash)) ∧
    (∀ (s : Store) (pid : String),
      verifyChainIntegrity s pid = chainLinked (findByPoem s pid)) ∧
    entryA3.previousHash = some entryB.blockHash ∧
    entryA3.previousHash ≠ some entryA1.blockHash ∧
    verifyChainIntegrity storeI3 "poemA" = false := by
  refine ⟨fun s p n => rfl, fun s pid => rfl, ?_, ?_, ?_⟩ <;> decide

/-- The stored `blockHash` is exactly the one recomputed from the
entry's own stored fields (`contentHash`, `previousHash`, the event
timestamp, `authorId`). -/
def blockHashRecomputes (e : LedgerEntry) : Prop :=
  e.blockHash =
    generateBlockHash e.contentHash e.previousHash
      (isoString e.metadata.originalTimestamp) e.authorId

/-- The stored `signature` is exactly the one recomputed from the
entry's stored `contentHash`, `blockHash` and event timestamp. -/
def signatureRecomputes (e : LedgerEntry) : Prop :=
  e.signature =
    generateSignature
      (e.contentHash ++ e.blockHash ++ isoString e.metadata.originalTimestamp)

/-- Claim C3: every appended entry stores
`blockHash = SHA-256(previousHash or sentinel, contentHash, timestamp,
authorId)` with the fixed sentinel string "0" substituted when there is
no predecessor, and
`signature = HMAC-SHA-256(secret, contentHash, blockHash, timestamp)`;
recomputing either from the stored fields reproduces the stored value,
for creation entries and for update entries alike. -/
theorem appended_entries_recompute :
    (∀ (s : Store) (p : PoemData) (n : Nat),
      blockHashRecomputes ((createPoemEntry s p n).1) ∧
      signatureRecomputes ((createPoemEntry s p n).1)) ∧
    (∀ (p : PoemData) (n : Nat),
      ((createPoemEntry [] p n).1).previousHash = none ∧
      ((createPoemEntry [] p n).1).blockHash =
        sha256 ("0" ++ ((createPoemEntry [] p n).1).contentHash ++
          isoString n ++ p.author)) ∧
    (∀ (s : Store) (p : PoemData) (n : Nat) (e : LedgerEntry) (s' : Store),
      updatePoemEntry s p n = Except.ok (e, s') →
      blockHashRecomputes e ∧ signatureRecomputes e) := by
  refine ⟨fun s p n => ⟨rfl, rfl⟩, fun p n => ⟨rfl, rfl⟩, ?_⟩
  intro s p n e s' hup
  cases hm : latestForPoem s p.id with
  | none => simp [updatePoemEntry, hm] at hup
  | some prev =>
    simp only [updatePoemEntry, hm, Except.ok.injEq, Prod.mk.injEq] at hup
    obtain ⟨he, hs⟩ := hup
    subst he
    exact ⟨rfl, rfl⟩

/-- The successful update of `poemA` on the one-entry store, extracted
from the `Except`. -/
def updA : LedgerEntry × Store :=
  (updatePoemEntry storeA1 poemA2 1).toOption.getD default

/-- Claim C3, witness: the recomputation equations hold on the concrete
first creation entry and on the concrete update entry. -/
theorem appended_entries_recompute_witness :
    blockHashRecomputes entryA1 ∧ signatureRecomputes entryA1 ∧
    updatePoemEntry storeA1 poemA2 1 = Except.ok (updA.1, updA.2) ∧
    blockHashRecomputes updA.1 ∧ signatureRecomputes updA.1 :=
  ⟨(appended_entries_recompute.1 [] poemA 0).1,
   (appended_entries_recompute.1 [] poemA 0).2,
   rfl,
   (appended_entries_recompute.2.2 storeA1 poemA2 1 updA.1 updA.2 rfl).1,
   (appended_entries_recompute.2.2 storeA1 poemA2 1 updA.1 updA.2 rfl).2⟩

/-- Claim C7: the store's save hook rejects every save of a non-new
document and its remove/deleteOne hooks reject every removal, each with
the immutability error; a save of a new entry appends it, so the
persisted list only ever grows. -/
theorem ledger_entries_immutable :
    (∀ (s : Store) (e : LedgerEntry),
      saveLedgerEntry s e false =
        Except.error "Ledger entries are immutable and cannot be modified") ∧
    (∀ (s : Store) (e : LedgerEntry),
      removeLedgerEntry s e =
        Except.error "Ledger entries cannot be deleted") ∧
    (∀ (s : Store),
      deleteOneLedgerEntry s =
        Except.error "Ledger entries cannot be deleted") ∧
    (∀ (s : Store) (e : LedgerEntry),
      saveLedgerEntry s e true = Except.ok (s ++ [e])) :=
  ⟨fun _ _ => rfl, fun _ _ => rfl, fun _ => rfl, fun _ _ => rfl⟩

/-- Claim C9: an update append for a subject with no prior entry in the
store throws before anything is saved; the error value is returned and
no entry is persisted (the model returns no successor store on the
error path, mirroring the throw that precedes the save). -/
theorem update_without_prior_entry_errors
    (s : Store) (p : PoemData) (n : Nat)
    (h : findByPoem s p.id = []) :
    updatePoemEntry s p n =
      Except.error "No previous ledger entry found for poem update" := by
  have hl : latestForPoem s p.id = none := by
    simp [latestForPoem, h]
  simp [updatePoemEntry, hl]

/-- Claim C9, witness: the empty store has no entry for `poemB`, and the
update append on it errors. -/
theorem update_without_prior_entry_errors_witness :
    findByPoem [] poemB.id = [] ∧
    updatePoemEntry [] poemB 0 =
      Except.error "No previous ledger entry found for poem update" :=
  ⟨rfl, update_without_prior_entry_errors [] poemB 0 rfl⟩

/-- Claim C10: authorship verification succeeds exactly when the chain
is non-empty, the per-poem linkage check passes, and the SHA-256 hash of
the supplied current content equals the `contentHash` stored in the
latest entry for the poem; in particular a content whose hash differs
from the tip's is invalid, and an empty chain is invalid rather than
vacuously valid. -/
theorem verifyAuthorship_valid_iff
    (s : Store) (pid content : String) :
    (verifyAuthorshipWith s pid content).isValid = true ↔
      (getAuthorshipChain s pid ≠ [] ∧
       verifyChainIntegrity s pid = true ∧
       (List.getLast? (getAuthorshipChain s pid)).map
           (fun e => e.contentHash) =
         some (generateContentHash content)) := by
  cases hl : List.getLast? (getAuthorshipChain s pid) with
  | none =>
    simp [verifyAuthorshipWith, hl]
  | some latest =>
    have hne : getAuthorshipChain s pid ≠ [] := by
      intro hE
      rw [hE] at hl
      simp at hl
    cases hv : verifyChainIntegrity s pid with
    | false => simp [verifyAuthorshipWith, hl, hv]
    | true => simp [verifyAuthorshipWith, hl, hv, hne]

/-- Claim C4: the claim asserts that issuing a certificate over a valid
chain and validating it at once returns fully valid.  But
`generateAuthorshipCertificate` calls `verifyAuthorship(poemId)` with no
content argument, so the very first hashing step throws and issuance
errors on EVERY store state - even the concrete one-entry store whose
chain full authorship verification (when given the content) reports
valid. -/
theorem certificate_issuance_always_errors :
    (verifyAuthorshipWith storeA1 "poemA" tipContentA1).isValid = true ∧
    (∀ (s : Store) (pid cid iat : String),
      generateAuthorshipCertificate s pid cid iat =
        Except.error cryptoUpdateUndefinedError) := by
  exact ⟨by decide, fun s pid cid iat => rfl⟩

/-- Claim C5: the claim asserts that validating a stale certificate
reports the certificate intact but the chain drifted via a chain-length
comparison.  But `validateCertificate` calls
`verifyAuthorship(certificate.poemId)` with no content argument, so it
errors on EVERY certificate and EVERY store state (and its result object
contains no comparison of the certificate's `chainLength` with the
current chain length at all). -/
theorem certificate_validation_always_errors :
    ∀ (s : Store) (c : Certificate),
      validateCertificate s c = Except.error cryptoUpdateUndefinedError :=
  fun _ _ => rfl

/-- A concrete event draft for the flat log. -/
def flatDraft : FlatDraft :=
  { poemId := "poemA", authorId := "alice", eventType := "POEM_CREATED" }

/-- The record the flat log writes for `flatDraft` at time 0. -/
def goodRecord : FlatRecord := mkFlatRecord flatDraft 0

/-- The fully-written line of the flat log. -/
def goodLine : String := serializeRecord goodRecord

/-- A line truncated mid-write: a strict prefix of the serialized second
record, cut after 20 characters. -/
def truncLine : String := (serializeRecord (mkFlatRecord flatDraft 1)).take 20

/-- The behavior of `JSON.parse` on the lines of the crashed file: the
fully-written line parses to its record; the truncated line is not valid
JSON, so `JSON.parse` throws (modelled as `none`). -/
def lineParse (s : String) : Option FlatRecord :=
  if s = goodLine then some goodRecord else none

/-- A flat-log state whose file holds one committed line followed by a
line truncated mid-write (no trailing newline). -/
def crashedState : FileLedgerState :=
  { isReady := true, file := goodLine ++ "\n" ++ truncLine }

/-- The same flat-log state without the crash. -/
def intactState : FileLedgerState :=
  { isReady := true, file := goodLine ++ "\n" }

set_option maxRecDepth 8000 in
/-- Claim C6: the claim asserts that a malformed trailing line is
treated as absent and the committed entries are still returned.  But
`getEntries` maps `JSON.parse` over all lines inside a single
`try`/`catch` that returns `[]`, so the truncated trailing line makes
the read return NO entries: the committed first entry is lost, where the
claim demands it be returned. -/
theorem truncated_tail_discards_whole_read :
    lineParse goodLine = some goodRecord ∧
    lineParse truncLine = none ∧
    getEntries lineParse intactState emptyFlatFilter = [goodRecord] ∧
    getEntries lineParse crashedState emptyFlatFilter = [] := by
  refine ⟨?_, ?_, ?_, ?_⟩ <;> decide

/-- Claim C8, amended: a failed append of the flat ledger - store not
ready, or the persistence call throwing - returns a bare `null` with the
state unchanged, the same `null` for either cause; a successful append
returns the record and appends its line to the file. -/
theorem appendEntry_failure_returns_null
    (st : FileLedgerState) (b : Bool) (d : FlatDraft) (t : Nat) :
    (st.isReady = false → appendEntry st b d t = (none, st)) ∧
    appendEntry st true d t = (none, st) ∧
    (st.isReady = true →
      appendEntry st false d t =
        (some (mkFlatRecord d t),
         { st with
             file := st.file ++ serializeRecord (mkFlatRecord d t) ++ "\n" })) := by
  refine ⟨fun h => ?_, ?_, fun h => ?_⟩
  · simp [appendEntry, h]
  · cases hst : st.isReady <;> simp [appendEntry, hst]
  · simp [appendEntry, h]

/-- Claim C8, witness: concrete not-ready, throwing and successful
appends, with the hypotheses discharged. -/
theorem appendEntry_failure_returns_null_witness :
    appendEntry { isReady := false, file := "" } false flatDraft 0 =
      (none, { isReady := false, file := "" }) ∧
    appendEntry { isReady := true, file := "" } true flatDraft 0 =
      (none, { isReady := true, file := "" }) ∧
    appendEntry { isReady := true, file := "" } false flatDraft 0 =
      (some (mkFlatRecord flatDraft 0),
       { isReady := true,
         file := "" ++ serializeRecord (mkFlatRecord flatDraft 0) ++ "\n" }) :=
  ⟨(appendEntry_failure_returns_null
      { isReady := false, file := "" } false flatDraft 0).1 rfl,
   (appendEntry_failure_returns_null
      { isReady := true, file := "" } true flatDraft 0).2.1,
   (appendEntry_failure_returns_null
      { isReady := true, file := "" } false flatDraft 0).2.2 rfl⟩

/-- Claim C8, counterexample to the claim as stated: the two failure
causes (store not ready; persistence call throwing) both surface as the
same bare `null` result - no typed error, no error information - and the
poem-creation route proceeds to its success response even when the
ledger step errored, so the HTTP caller observes nothing. -/
theorem append_failure_is_untyped_null_and_route_proceeds :
    (appendEntry { isReady := false, file := "" } false flatDraft 0).1
      = none ∧
    (appendEntry { isReady := true, file := "" } true flatDraft 0).1
      = none ∧
    routeLedgerCreateStep (Except.error "ledger failure") = true ∧
    routeLedgerCreateStep (Except.ok entryA1) = true :=
  ⟨rfl, rfl, rfl, rfl⟩
